import Mathlib

/-!
# HiveTaxiAPI ride-dispatch engine: shallow embedding

This file embeds the ride-dispatch core of the HiveTaxiAPI repository:
the Redis-backed driver queue and offer loop of
`src/services/notificationService.js`, the driver accept/decline routes of
`src/routes/requests.js`, and the canonical ride-request store of
`src/db/rideRequests.js`.

The per-request Redis keys become fields of `DispatchState`
(`ride:request:{id}:status`, `:queue`, `:current_driver`, `:driver`,
`:eta`, `:responses`, each with its TTL).  A Redis list key is modelled by
a `List String`, the empty list standing for an absent key (Redis removes
a list key when its last element is popped); string keys are `Option
String`.  The side effects of the engine (FCM pushes, `setTimeout`
scheduling, writes of the current-offeree key) are reified as a `List
Eff` returned next to the new state, so that theorems can count pushes
and inspect the kind of write used on the `current_driver` key.

Interleaved executions are modelled by `run`: a list of events (an
`advance` = `processDriverQueue` invocation, a `timeout` = the armed
`checkDriverTimeout` firing, a `respond` = `handleDriverResponse`), each
applied atomically to the state.
-/

namespace HiveTaxi

/-- JS truthiness of a possibly-absent string: `undefined`/`null` and the
empty string are falsy, every other string is truthy. -/
def jsTruthy : Option String → Bool
  | none => false
  | some s => s ≠ ""

/-- JS `a || b` on possibly-absent strings. -/
def jsOr (a b : Option String) : Option String :=
  if jsTruthy a then a else b

/-- A row of the `users` table as the notification service reads it. -/
structure User where
  fcmToken : Option String
  displayName : Option String
  deriving DecidableEq, Repr

/-- The user store (`src/db/users.js`): lookup by id or username. -/
def UserDir : Type := String → Option User

/-- The FCM token of a user, if the user exists and has one. -/
def lookupToken (dir : UserDir) (userId : String) : Option String :=
  match dir userId with
  | some u => u.fcmToken
  | none => none

/-- A pickup or dropoff object as sent by the client
(`{lat, lng, address, name}`). -/
structure Location where
  lat : Option String
  lng : Option String
  address : Option String
  name : Option String
  deriving DecidableEq, Repr

/-- The `rideDetails` argument threaded through `processDriverQueue`.
The source reads both camelCase fields (as passed by the
`POST /api/requests` route) and snake_case fallbacks (as read from the
database row), so both spellings are fields here; the JS literal `{}`
is `emptyRideDetails` (everything absent). -/
structure RideDetails where
  passengerPhone : Option String
  passengerId : Option String
  passenger_id : Option String
  passengerName : Option String
  passenger_name : Option String
  pickup : Option Location
  pickup_address : Option String
  pickup_lat : Option String
  pickup_lng : Option String
  pickup_name : Option String
  dropoff : Option Location
  dropoff_address : Option String
  dropoff_lat : Option String
  dropoff_lng : Option String
  dropoff_name : Option String
  estimatedDistance : Option String
  estimated_distance : Option String
  estimatedDuration : Option String
  estimated_duration : Option String
  priority : Option String
  proposedFare : Option String
  proposed_fare : Option String
  deriving DecidableEq, Repr

/-- The JS object literal `{}`: every property reads as `undefined`. -/
def emptyRideDetails : RideDetails :=
  { passengerPhone := none, passengerId := none, passenger_id := none
    passengerName := none, passenger_name := none
    pickup := none, pickup_address := none, pickup_lat := none
    pickup_lng := none, pickup_name := none
    dropoff := none, dropoff_address := none, dropoff_lat := none
    dropoff_lng := none, dropoff_name := none
    estimatedDistance := none, estimated_distance := none
    estimatedDuration := none, estimated_duration := none
    priority := none, proposedFare := none, proposed_fare := none }

/-- The `trip` object embedded in a `ride_request` push
(`sendRideRequestToDriver`). -/
structure Trip where
  passengerPhone : Option String
  passengerId : Option String
  passengerName : Option String
  pickupAddress : Option String
  pickupLatitude : Option String
  pickupLongitude : Option String
  pickupName : Option String
  dropoffAddress : Option String
  dropoffLatitude : Option String
  dropoffLongitude : Option String
  dropoffName : Option String
  distance : Option String
  duration : Option String
  priority : Option String
  proposedFare : Option String
  deriving DecidableEq, Repr

/-- The trip-object construction at the top of `sendRideRequestToDriver`,
field by field with the `a?.x || a_x` fallbacks of the source. -/
def buildTrip (rd : RideDetails) : Trip :=
  { passengerPhone := rd.passengerPhone
    passengerId := jsOr rd.passengerId rd.passenger_id
    passengerName := jsOr rd.passengerName rd.passenger_name
    pickupAddress := jsOr (rd.pickup.bind Location.address) rd.pickup_address
    pickupLatitude := jsOr (rd.pickup.bind Location.lat) rd.pickup_lat
    pickupLongitude := jsOr (rd.pickup.bind Location.lng) rd.pickup_lng
    pickupName := jsOr (jsOr (rd.pickup.bind Location.name) rd.pickup_name) (some "")
    dropoffAddress := jsOr (rd.dropoff.bind Location.address) rd.dropoff_address
    dropoffLatitude := jsOr (rd.dropoff.bind Location.lat) rd.dropoff_lat
    dropoffLongitude := jsOr (rd.dropoff.bind Location.lng) rd.dropoff_lng
    dropoffName := jsOr (jsOr (rd.dropoff.bind Location.name) rd.dropoff_name) (some "")
    distance := jsOr rd.estimatedDistance rd.estimated_distance
    duration := jsOr rd.estimatedDuration rd.estimated_duration
    priority := rd.priority
    proposedFare := jsOr rd.proposedFare rd.proposed_fare }

/-- An entry of the `ride:request:{id}:responses` log (timestamps are
wall-clock and are left out of the model). -/
structure LogEntry where
  driverId : String
  response : String
  deriving DecidableEq, Repr

/-- The kind of Redis write used on a string key: the source only ever
issues plain `SET` (`unconditional`); `ifAbsent` (`SET ... NX`) and
`ifEquals` (a compare-and-set expecting a previous value) exist so that
the spec notion of a compare-and-set write can be stated and compared. -/
inductive WriteCond where
  | unconditional
  | ifAbsent
  | ifEquals (prev : String)
  deriving DecidableEq, Repr

/-- Spec wording (§4.2): an offeree write is a compare-and-set when it
succeeds only if the key is empty (`ifAbsent`) or equal to an expected
previous value (`ifEquals`); a plain `SET` is not. -/
def isCompareAndSetWrite : WriteCond → Bool
  | WriteCond.unconditional => false
  | WriteCond.ifAbsent => true
  | WriteCond.ifEquals _ => true

/-- Observable side effects of the engine, in program order: FCM push
attempts (emitted only when the recipient exists and has a token, as in
`_sendNotification`), the error log of a swallowed delivery failure,
writes of the `current_driver` key, and `setTimeout` scheduling. -/
inductive Eff where
  | fcmRideRequest (driverId requestId : String) (trip : Trip)
  | fcmNoDrivers (userId requestId : String)
  | fcmRideAccepted (riderId requestId driverId : String) (eta : String)
  | fcmExpired (driverId requestId : String)
  | sendErrorLog (userId : String)
  | offereeWrite (value : String) (cond : WriteCond)
  | armTimer (driverId : String) (ms : Nat)
  | scheduleAdvance (ms : Nat) (rd : Option RideDetails)
  deriving DecidableEq, Repr

/-- The per-request ephemeral dispatch state: the six
`ride:request:{id}:*` Redis keys with their TTLs (seconds).  List keys
are absent exactly when the list is empty. -/
structure DispatchState where
  status : Option String
  statusTtl : Option Nat
  queue : List String
  queueTtl : Option Nat
  currentDriver : Option String
  currentDriverTtl : Option Nat
  acceptedDriver : Option String
  acceptedDriverTtl : Option Nat
  eta : Option String
  etaTtl : Option Nat
  responses : List LogEntry
  responsesTtl : Option Nat
  deriving DecidableEq, Repr

/-- The state right after `POST /api/requests` initialises the status key
(`SET ... pending`, `EXPIRE 600`) and before `createDriverQueue` runs. -/
def initialDispatchState : DispatchState :=
  { status := some "pending", statusTtl := some 600
    queue := [], queueTtl := none
    currentDriver := none, currentDriverTtl := none
    acceptedDriver := none, acceptedDriverTtl := none
    eta := none, etaTtl := none
    responses := [], responsesTtl := none }

/-- One element of the `nearbyDrivers` array handed to
`createDriverQueue` (built from the `GEORADIUS` reply). -/
structure NearbyDriver where
  driverId : String
  deriving DecidableEq, Repr

/-- `createDriverQueue(requestId, nearbyDrivers)`: `RPUSH` the driver ids,
`EXPIRE 600` the queue, then `SET current_driver "0"` with `EXPIRE 600`.
Returns the new state, the queue length, and the effects (the write of
the `current_driver` key). -/
def createDriverQueue (nearbyDrivers : List NearbyDriver) (s : DispatchState) :
    DispatchState × Nat × List Eff :=
  let driverIds := nearbyDrivers.map NearbyDriver.driverId
  if driverIds.length > 0 then
    ({ s with queue := s.queue ++ driverIds, queueTtl := some 600
              currentDriver := some "0", currentDriverTtl := some 600 },
     driverIds.length,
     [Eff.offereeWrite "0" WriteCond.unconditional])
  else
    (s, 0, [])

/-- `logDriverResponse`: `RPUSH` a `{driverId, response, timestamp}` JSON
entry onto the response log and `EXPIRE 86400`. -/
def logDriverResponse (driverId response : String) (s : DispatchState) : DispatchState :=
  { s with responses := s.responses ++ [⟨driverId, response⟩]
           responsesTtl := some 86400 }

/-- `cleanupRequestQueue`: `DEL` the queue key and the `current_driver`
key. -/
def cleanupRequestQueue (s : DispatchState) : DispatchState :=
  { s with queue := [], queueTtl := none
           currentDriver := none, currentDriverTtl := none }

/-- `sendRideRequestToDriver`: build the trip object, then
`_sendNotification` — look the driver up, skip silently without a token,
otherwise hand the message to FCM.  `_sendNotification` wraps the send
in try/catch and swallows a transport failure (logging it), so the
caller never observes an exception; `sendFails` says whether the
transport errored on this attempt. -/
def sendRideRequestToDriver (dir : UserDir) (sendFails : Bool)
    (driverId requestId : String) (rd : RideDetails) : List Eff :=
  match lookupToken dir driverId with
  | some _ =>
      Eff.fcmRideRequest driverId requestId (buildTrip rd) ::
        (if sendFails then [Eff.sendErrorLog driverId] else [])
  | none => []

/-- `sendNoDriverFoundToRider(userId, requestId)` via `_sendNotification`:
a push only when the user id is present, found, and has a token. -/
def sendNoDriverFoundToRider (dir : UserDir) (userId : Option String)
    (requestId : String) : List Eff :=
  match userId with
  | some uid =>
      match lookupToken dir uid with
      | some _ => [Eff.fcmNoDrivers uid requestId]
      | none => []
  | none => []

/-- `sendDriverRequestExpiredNotification(driverId, requestId)`. -/
def sendDriverRequestExpiredNotification (dir : UserDir)
    (driverId requestId : String) : List Eff :=
  match lookupToken dir driverId with
  | some _ => [Eff.fcmExpired driverId requestId]
  | none => []

/-- `sendRideAcceptedToRider(riderId, requestId, driverId,
estimatedArrival)`: data payload `{requestId, driverId, type:
ride_accepted, eta}` sent to the rider via `_sendNotification`.
Present in the source but — see the theorems below — never invoked by
the accept path. -/
def sendRideAcceptedToRider (dir : UserDir)
    (riderId requestId driverId : String) (estimatedArrival : Option Nat) : List Eff :=
  let etaStr := match estimatedArrival with
    | some n => toString n
    | none => ""
  match lookupToken dir riderId with
  | some _ => [Eff.fcmRideAccepted riderId requestId driverId etaStr]
  | none => []

/-- The part of `processDriverQueue` after its status guard:
`LPOP` the queue; on empty, `SET status no_drivers_available`
(`EXPIRE 600`) and, when `rideDetails` is truthy, push
`no_drivers_available` to `rideDetails.passengerId`; otherwise try
`sendRideRequestToDriver`, then `SET current_driver` to the popped id
(`EXPIRE 120`) and arm the 60 s timeout check.  The catch branch
(reachable only when `rideDetails` is absent, which makes the trip
construction throw before the send) schedules a retry of
`processDriverQueue` after 1 s without recording the offeree or arming
the timer. -/
def processQueueBody (dir : UserDir) (sendFails : Bool) (rd : Option RideDetails)
    (requestId : String) (s : DispatchState) : DispatchState × List Eff :=
  match s.queue with
  | [] =>
      ({ s with status := some "no_drivers_available", statusTtl := some 600 },
       match rd with
       | some details => sendNoDriverFoundToRider dir details.passengerId requestId
       | none => [])
  | nextDriverId :: rest =>
      match rd with
      | none =>
          ({ s with queue := rest }, [Eff.scheduleAdvance 1000 none])
      | some details =>
          ({ s with queue := rest
                    currentDriver := some nextDriverId
                    currentDriverTtl := some 120 },
           sendRideRequestToDriver dir sendFails nextDriverId requestId details ++
             [Eff.offereeWrite nextDriverId WriteCond.unconditional,
              Eff.armTimer nextDriverId 60000])

/-- `processDriverQueue(requestId, rideDetails)`: return at once if the
status key holds a value other than `pending`, else run
`processQueueBody`. -/
def processDriverQueue (dir : UserDir) (sendFails : Bool)
    (rd : Option RideDetails) (requestId : String) (s : DispatchState) :
    DispatchState × List Eff :=
  match s.status with
  | some st =>
      if st ≠ "pending" then (s, [])
      else processQueueBody dir sendFails rd requestId s
  | none => processQueueBody dir sendFails rd requestId s

/-- `checkDriverTimeout(requestId, driverId, rideDetails)` — the armed
60 s timer: no-op when the status is `accepted` or `cancelled` or the
driver is no longer current; otherwise log a `timeout` entry, push
`ride_request_expired` to the driver, and advance via
`processDriverQueue`. -/
def checkDriverTimeout (dir : UserDir) (sendFails : Bool)
    (rd : Option RideDetails) (requestId driverId : String) (s : DispatchState) :
    DispatchState × List Eff :=
  if s.status = some "accepted" ∨ s.status = some "cancelled" then (s, [])
  else if s.currentDriver = some driverId then
    let s₁ := logDriverResponse driverId "timeout" s
    let expEffs := sendDriverRequestExpiredNotification dir driverId requestId
    let next := processDriverQueue dir sendFails rd requestId s₁
    (next.1, expEffs ++ next.2)
  else (s, [])

/-- `handleDriverResponse(requestId, driverId, response,
estimatedArrival)`: reject (`false`, nothing written) unless the caller
is the current offeree; otherwise log the response, then on `accept`
`SET status accepted` (`EXPIRE 3600`), store the driver and — when the
ETA is truthy — the ETA (`EXPIRE 3600` each), and `DEL` the queue and
offeree keys; on `decline` schedule `processDriverQueue(requestId, {})`
after 1 s.  Returns (state, applied, effects). -/
def handleDriverResponse (dir : UserDir) (requestId driverId response : String)
    (estimatedArrival : Option Nat) (s : DispatchState) :
    DispatchState × Bool × List Eff :=
  if s.currentDriver = some driverId then
    let s₁ := logDriverResponse driverId response s
    if response = "accept" then
      let s₂ := { s₁ with
        status := some "accepted", statusTtl := some 3600
        acceptedDriver := some driverId, acceptedDriverTtl := some 3600
        eta := match estimatedArrival with
          | some n => if n ≠ 0 then some (toString n) else s₁.eta
          | none => s₁.eta
        etaTtl := match estimatedArrival with
          | some n => if n ≠ 0 then some 3600 else s₁.etaTtl
          | none => s₁.etaTtl }
      (cleanupRequestQueue s₂, true, [])
    else if response = "decline" then
      (s₁, true, [Eff.scheduleAdvance 1000 (some emptyRideDetails)])
    else
      (s₁, false, [])
  else
    (s, false, [])

/-- `getRequestStatus` view: `{status (default pending), driverId,
estimatedArrival}`. -/
structure StatusView where
  status : String
  driverId : Option String
  estimatedArrival : Option String
  deriving DecidableEq, Repr

/-- `getRequestStatus(requestId)`. -/
def getRequestStatus (s : DispatchState) : StatusView :=
  { status := s.status.getD "pending"
    driverId := s.acceptedDriver
    estimatedArrival := s.eta }

/-- A row of the canonical `ride_requests` table, with the columns the
accept path touches or reads (`src/db/rideRequests.js`). -/
structure RideRequestRow where
  id : String
  passenger_id : Option String
  passenger_name : Option String
  passenger_phone : Option String
  pickup_lat : Option String
  pickup_lng : Option String
  pickup_address : Option String
  dropoff_lat : Option String
  dropoff_lng : Option String
  dropoff_address : Option String
  estimated_distance : Option String
  estimated_duration : Option String
  proposed_fare : Option String
  priority : Option String
  status : String
  driver_id : Option String
  deriving DecidableEq, Repr

/-- `updateRideRequestStatus(id, status)`:
`UPDATE ride_requests SET status = $1 WHERE id = $2` — the only column
written is `status`. -/
def updateRideRequestStatus (status : String) (row : RideRequestRow) : RideRequestRow :=
  { row with status := status }

/-- Result of the `POST /api/requests/:id/accept` handler. -/
structure AcceptOutcome where
  applied : Bool
  httpStatus : Nat
  canonical : Option RideRequestRow
  dispatch : DispatchState
  effs : List Eff
  deriving Repr

/-- The `POST /api/requests/:id/accept` route body: run
`handleDriverResponse(id, driverId, accept, estimatedArrival)`; on
`false` answer 400; otherwise fetch the canonical row (404 when absent),
`updateRideRequestStatus(id, accepted)` and `SET` the Redis status key
to `accepted` (a plain `SET`, which removes the key TTL). -/
def acceptRoute (dir : UserDir) (db : Option RideRequestRow)
    (requestId driverId : String) (estimatedArrival : Option Nat)
    (s : DispatchState) : AcceptOutcome :=
  let r := handleDriverResponse dir requestId driverId "accept" estimatedArrival s
  if r.2.1 = false then
    { applied := false, httpStatus := 400, canonical := db, dispatch := r.1, effs := r.2.2 }
  else
    match db with
    | none =>
        { applied := true, httpStatus := 404, canonical := none
          dispatch := r.1, effs := r.2.2 }
    | some row =>
        { applied := true, httpStatus := 200
          canonical := some (updateRideRequestStatus "accepted" row)
          dispatch := { r.1 with status := some "accepted", statusTtl := none }
          effs := r.2.2 }

/-- An event reaching the engine for one request: an `advance`
(`processDriverQueue` invocation, with the ride details and transport
outcome of that invocation), a `timeout` (an armed `checkDriverTimeout`
firing for a driver), or a `respond` (`handleDriverResponse`). -/
inductive Event where
  | advance (rd : Option RideDetails) (sendFails : Bool)
  | timeout (driverId : String) (rd : Option RideDetails) (sendFails : Bool)
  | respond (driverId response : String) (estimatedArrival : Option Nat)
  deriving Repr

/-- Apply one event to the dispatch state. -/
def step (dir : UserDir) (requestId : String) (s : DispatchState) :
    Event → DispatchState × List Eff
  | Event.advance rd sendFails => processDriverQueue dir sendFails rd requestId s
  | Event.timeout d rd sendFails => checkDriverTimeout dir sendFails rd requestId d s
  | Event.respond d resp eta =>
      let r := handleDriverResponse dir requestId d resp eta s
      (r.1, r.2.2)

/-- Apply a list of events in order, concatenating the effects. -/
def run (dir : UserDir) (requestId : String) :
    DispatchState → List Event → DispatchState × List Eff
  | s, [] => (s, [])
  | s, e :: evs =>
      let r₁ := step dir requestId s e
      let r₂ := run dir requestId r₁.1 evs
      (r₂.1, r₁.2 ++ r₂.2)

/-- The driver-id values written to the `current_driver` key within an
effect list. -/
def offereeWrites : List Eff → List String
  | [] => []
  | Eff.offereeWrite v _ :: rest => v :: offereeWrites rest
  | _ :: rest => offereeWrites rest

/-- The conditions of the `current_driver` writes within an effect list. -/
def offereeWriteConds : List Eff → List WriteCond
  | [] => []
  | Eff.offereeWrite _ c :: rest => c :: offereeWriteConds rest
  | _ :: rest => offereeWriteConds rest

/-- The `ride_accepted` pushes within an effect list. -/
def rideAcceptedPushes (effs : List Eff) : List Eff :=
  effs.filter fun e => match e with
    | Eff.fcmRideAccepted _ _ _ _ => true
    | _ => false

/-- The `ride_request` pushes within an effect list. -/
def rideRequestPushes (effs : List Eff) : List Eff :=
  effs.filter fun e => match e with
    | Eff.fcmRideRequest _ _ _ => true
    | _ => false

/-- The `no_drivers_available` pushes within an effect list. -/
def noDriversPushes (effs : List Eff) : List Eff :=
  effs.filter fun e => match e with
    | Eff.fcmNoDrivers _ _ => true
    | _ => false

/-- The scheduled `processDriverQueue` retries within an effect list. -/
def advanceSchedules (effs : List Eff) : List Eff :=
  effs.filter fun e => match e with
    | Eff.scheduleAdvance _ _ => true
    | _ => false

/-- A concrete user directory for the witness scenarios: drivers d1, d2,
d3 and passenger p1, each with an FCM token. -/
def testDir : UserDir := fun uid =>
  if uid = "d1" ∨ uid = "d2" ∨ uid = "d3" then
    some { fcmToken := some "tok-driver", displayName := some "Driver" }
  else if uid = "p1" then
    some { fcmToken := some "tok-rider", displayName := some "Pat" }
  else none

/-- Concrete ride details as the creation route passes them. -/
def sampleRideDetails : RideDetails :=
  { emptyRideDetails with
      passengerPhone := some "+15550100"
      passengerId := some "p1"
      passengerName := some "Pat"
      pickup := some { lat := some "40.7128", lng := some "-74.0060"
                       address := some "123 Main St", name := some "Main" }
      dropoff := some { lat := some "40.7589", lng := some "-73.9851"
                        address := some "456 Broadway", name := some "Broadway" }
      estimatedDistance := some "3.2"
      estimatedDuration := some "12"
      priority := some "normal"
      proposedFare := some "18.50" }

/-- The dispatch state after admission of a request with candidates d1
and d2. -/
def seededTwo : DispatchState :=
  (createDriverQueue [⟨"d1"⟩, ⟨"d2"⟩] initialDispatchState).1

/-- The dispatch state after the first offer went out on `seededTwo`:
d1 is the current offeree, d2 still queued. -/
def offeredOne : DispatchState :=
  (step testDir "r1" seededTwo (Event.advance (some sampleRideDetails) false)).1

/-- The canonical `ride_requests` row of the sample request, as created
(status `pending`, `driver_id` NULL). -/
def sampleRow : RideRequestRow :=
  { id := "r1", passenger_id := some "p1", passenger_name := some "Pat"
    passenger_phone := some "+15550100"
    pickup_lat := some "40.7128", pickup_lng := some "-74.0060"
    pickup_address := some "123 Main St"
    dropoff_lat := some "40.7589", dropoff_lng := some "-73.9851"
    dropoff_address := some "456 Broadway"
    estimated_distance := some "3.2", estimated_duration := some "12"
    proposed_fare := some "18.50", priority := some "normal"
    status := "pending", driver_id := none }

/-- The S3 scenario of the spec: both candidates time out. -/
def s3Events : List Event :=
  [Event.advance (some sampleRideDetails) false,
   Event.timeout "d1" (some sampleRideDetails) false,
   Event.timeout "d2" (some sampleRideDetails) false]

example : seededTwo.queue = ["d1", "d2"] := by decide
example : seededTwo.currentDriver = some "0" := by decide
example : offeredOne.currentDriver = some "d1" := by decide
example : offeredOne.queue = ["d2"] := by decide

/-! ## Helper lemmas: offeree writes produced by the engine -/

theorem offereeWrites_append (a b : List Eff) :
    offereeWrites (a ++ b) = offereeWrites a ++ offereeWrites b := by
  induction a with
  | nil => simp [offereeWrites]
  | cons e rest ih =>
    cases e <;> simp [offereeWrites, ih]

theorem offereeWrites_sendRideRequest (dir : UserDir) (sf : Bool)
    (d rid : String) (rd : RideDetails) :
    offereeWrites (sendRideRequestToDriver dir sf d rid rd) = [] := by
  unfold sendRideRequestToDriver
  cases h : lookupToken dir d <;> cases sf <;> simp [offereeWrites]

theorem offereeWrites_sendNoDriver (dir : UserDir) (uid : Option String)
    (rid : String) :
    offereeWrites (sendNoDriverFoundToRider dir uid rid) = [] := by
  unfold sendNoDriverFoundToRider
  cases uid with
  | none => simp [offereeWrites]
  | some u => cases h : lookupToken dir u <;> simp [h, offereeWrites]

theorem offereeWrites_sendExpired (dir : UserDir) (d rid : String) :
    offereeWrites (sendDriverRequestExpiredNotification dir d rid) = [] := by
  unfold sendDriverRequestExpiredNotification
  cases h : lookupToken dir d <;> simp [offereeWrites]

theorem processQueueBody_offerees (dir : UserDir) (sf : Bool)
    (rd : Option RideDetails) (rid : String) (s : DispatchState) :
    (offereeWrites (processQueueBody dir sf rd rid s).2 ++
      (processQueueBody dir sf rd rid s).1.queue).Sublist s.queue := by
  rcases hq : s.queue with _ | ⟨d, rest⟩
  · rcases rd with _ | details
    · simp [processQueueBody, hq, offereeWrites]
    · simp [processQueueBody, hq, offereeWrites_sendNoDriver]
  · rcases rd with _ | details
    · simp [processQueueBody, hq, offereeWrites]
    · simp only [processQueueBody, hq, offereeWrites_append,
        offereeWrites_sendRideRequest, offereeWrites, List.nil_append,
        List.singleton_append]
      exact List.Sublist.refl (d :: rest)

theorem processDriverQueue_offerees (dir : UserDir) (sf : Bool)
    (rd : Option RideDetails) (rid : String) (s : DispatchState) :
    (offereeWrites (processDriverQueue dir sf rd rid s).2 ++
      (processDriverQueue dir sf rd rid s).1.queue).Sublist s.queue := by
  unfold processDriverQueue
  cases s.status with
  | none => exact processQueueBody_offerees dir sf rd rid s
  | some st =>
    by_cases h : st = "pending"
    · simp only [h, ne_eq, not_true_eq_false, if_false]
      exact processQueueBody_offerees dir sf rd rid s
    · simp only [ne_eq, h, not_false_eq_true, if_true]
      exact List.Sublist.refl _

theorem checkDriverTimeout_offerees (dir : UserDir) (sf : Bool)
    (rd : Option RideDetails) (rid d : String) (s : DispatchState) :
    (offereeWrites (checkDriverTimeout dir sf rd rid d s).2 ++
      (checkDriverTimeout dir sf rd rid d s).1.queue).Sublist s.queue := by
  unfold checkDriverTimeout
  by_cases h₁ : s.status = some "accepted" ∨ s.status = some "cancelled"
  · simp only [h₁, if_true]
    exact List.Sublist.refl _
  · by_cases h₂ : s.currentDriver = some d
    · simp only [h₁, h₂, if_false, if_true]
      rw [offereeWrites_append, offereeWrites_sendExpired, List.nil_append]
      exact processDriverQueue_offerees dir sf rd rid (logDriverResponse d "timeout" s)
    · simp only [h₁, h₂, if_false]
      exact List.Sublist.refl _

theorem handleDriverResponse_offerees (dir : UserDir) (rid d resp : String)
    (eta : Option Nat) (s : DispatchState) :
    (offereeWrites (handleDriverResponse dir rid d resp eta s).2.2 ++
      (handleDriverResponse dir rid d resp eta s).1.queue).Sublist s.queue := by
  unfold handleDriverResponse
  by_cases h₁ : s.currentDriver = some d
  · by_cases h₂ : resp = "accept"
    · simp only [h₁, h₂, if_true]
      show (offereeWrites [] ++ (cleanupRequestQueue _).queue).Sublist s.queue
      rw [show offereeWrites ([] : List Eff) = [] from rfl, List.nil_append,
        show ∀ t, (cleanupRequestQueue t).queue = [] from fun _ => rfl]
      exact List.nil_sublist _
    · by_cases h₃ : resp = "decline"
      · simp only [h₁, h₂, h₃, if_true, if_false]
        exact List.Sublist.refl _
      · simp only [h₁, h₂, h₃, if_false]
        exact List.Sublist.refl _
  · simp only [h₁, if_false]
    exact List.Sublist.refl _

theorem step_offerees (dir : UserDir) (rid : String) (s : DispatchState)
    (e : Event) :
    (offereeWrites (step dir rid s e).2 ++ (step dir rid s e).1.queue).Sublist
      s.queue := by
  cases e with
  | advance rd sf => exact processDriverQueue_offerees dir sf rd rid s
  | timeout d rd sf => exact checkDriverTimeout_offerees dir sf rd rid d s
  | respond d resp eta => exact handleDriverResponse_offerees dir rid d resp eta s

theorem run_offerees (dir : UserDir) (rid : String) (evs : List Event)
    (s : DispatchState) :
    (offereeWrites (run dir rid s evs).2 ++ (run dir rid s evs).1.queue).Sublist
      s.queue := by
  induction evs generalizing s with
  | nil => simp [run, offereeWrites]
  | cons e evs ih =>
    have h₁ := step_offerees dir rid s e
    have h₂ := ih (step dir rid s e).1
    show (offereeWrites ((step dir rid s e).2 ++
        (run dir rid (step dir rid s e).1 evs).2) ++ _).Sublist s.queue
    rw [offereeWrites_append, List.append_assoc]
    exact (h₂.append_left (offereeWrites (step dir rid s e).2)).trans h₁

/-! ## Helper lemmas: write conditions used on the offeree key -/

theorem offereeWriteConds_append (a b : List Eff) :
    offereeWriteConds (a ++ b) = offereeWriteConds a ++ offereeWriteConds b := by
  induction a with
  | nil => simp [offereeWriteConds]
  | cons e rest ih =>
    cases e <;> simp [offereeWriteConds, ih]

theorem conds_sendRideRequest (dir : UserDir) (sf : Bool)
    (d rid : String) (rd : RideDetails) :
    offereeWriteConds (sendRideRequestToDriver dir sf d rid rd) = [] := by
  unfold sendRideRequestToDriver
  cases h : lookupToken dir d <;> cases sf <;> simp [offereeWriteConds]

theorem conds_sendNoDriver (dir : UserDir) (uid : Option String) (rid : String) :
    offereeWriteConds (sendNoDriverFoundToRider dir uid rid) = [] := by
  unfold sendNoDriverFoundToRider
  cases uid with
  | none => simp [offereeWriteConds]
  | some u => cases h : lookupToken dir u <;> simp [h, offereeWriteConds]

theorem conds_sendExpired (dir : UserDir) (d rid : String) :
    offereeWriteConds (sendDriverRequestExpiredNotification dir d rid) = [] := by
  unfold sendDriverRequestExpiredNotification
  cases h : lookupToken dir d <;> simp [offereeWriteConds]

theorem processQueueBody_conds (dir : UserDir) (sf : Bool)
    (rd : Option RideDetails) (rid : String) (s : DispatchState) :
    ∀ c ∈ offereeWriteConds (processQueueBody dir sf rd rid s).2,
      c = WriteCond.unconditional := by
  rcases hq : s.queue with _ | ⟨d, rest⟩
  · rcases rd with _ | details
    · simp [processQueueBody, hq, offereeWriteConds]
    · simp [processQueueBody, hq, conds_sendNoDriver]
  · rcases rd with _ | details
    · simp [processQueueBody, hq, offereeWriteConds]
    · simp [processQueueBody, hq, offereeWriteConds_append,
        conds_sendRideRequest, offereeWriteConds]

theorem processDriverQueue_conds (dir : UserDir) (sf : Bool)
    (rd : Option RideDetails) (rid : String) (s : DispatchState) :
    ∀ c ∈ offereeWriteConds (processDriverQueue dir sf rd rid s).2,
      c = WriteCond.unconditional := by
  unfold processDriverQueue
  cases s.status with
  | none => exact processQueueBody_conds dir sf rd rid s
  | some st =>
    by_cases h : st = "pending"
    · simp only [h, ne_eq, not_true_eq_false, if_false]
      exact processQueueBody_conds dir sf rd rid s
    · simp only [ne_eq, h, not_false_eq_true, if_true]
      simp [offereeWriteConds]

theorem checkDriverTimeout_conds (dir : UserDir) (sf : Bool)
    (rd : Option RideDetails) (rid d : String) (s : DispatchState) :
    ∀ c ∈ offereeWriteConds (checkDriverTimeout dir sf rd rid d s).2,
      c = WriteCond.unconditional := by
  unfold checkDriverTimeout
  by_cases h₁ : s.status = some "accepted" ∨ s.status = some "cancelled"
  · simp [h₁, offereeWriteConds]
  · by_cases h₂ : s.currentDriver = some d
    · simp only [h₁, h₂, if_false, if_true]
      rw [offereeWriteConds_append, conds_sendExpired, List.nil_append]
      exact processDriverQueue_conds dir sf rd rid (logDriverResponse d "timeout" s)
    · simp [h₁, h₂, offereeWriteConds]

theorem handleDriverResponse_conds (dir : UserDir) (rid d resp : String)
    (eta : Option Nat) (s : DispatchState) :
    ∀ c ∈ offereeWriteConds (handleDriverResponse dir rid d resp eta s).2.2,
      c = WriteCond.unconditional := by
  unfold handleDriverResponse
  by_cases h₁ : s.currentDriver = some d
  · by_cases h₂ : resp = "accept"
    · simp [h₁, h₂, offereeWriteConds]
    · by_cases h₃ : resp = "decline"
      · simp [h₁, h₂, h₃, offereeWriteConds]
      · simp [h₁, h₂, h₃, offereeWriteConds]
  · simp [h₁, offereeWriteConds]

theorem step_conds (dir : UserDir) (rid : String) (s : DispatchState) (e : Event) :
    ∀ c ∈ offereeWriteConds (step dir rid s e).2, c = WriteCond.unconditional := by
  cases e with
  | advance rd sf => exact processDriverQueue_conds dir sf rd rid s
  | timeout d rd sf => exact checkDriverTimeout_conds dir sf rd rid d s
  | respond d resp eta => exact handleDriverResponse_conds dir rid d resp eta s

theorem run_conds (dir : UserDir) (rid : String) (evs : List Event)
    (s : DispatchState) :
    ∀ c ∈ offereeWriteConds (run dir rid s evs).2, c = WriteCond.unconditional := by
  induction evs generalizing s with
  | nil => simp [run, offereeWriteConds]
  | cons e evs ih =>
    intro c hc
    have : c ∈ offereeWriteConds ((step dir rid s e).2 ++
        (run dir rid (step dir rid s e).1 evs).2) := hc
    rw [offereeWriteConds_append, List.mem_append] at this
    cases this with
    | inl h => exact step_conds dir rid s e c h
    | inr h => exact ih (step dir rid s e).1 c h

theorem mem_offereeWriteConds (v : String) (c : WriteCond) (l : List Eff)
    (h : Eff.offereeWrite v c ∈ l) : c ∈ offereeWriteConds l := by
  induction l with
  | nil => cases h
  | cons e rest ih =>
    cases h with
    | head =>
      simp only [offereeWriteConds]
      exact List.mem_cons_self _ _
    | tail _ hmem =>
      have hr := ih hmem
      cases e
      all_goals simp only [offereeWriteConds, List.mem_cons]
      all_goals first
        | exact hr
        | exact Or.inr hr

/-! ## Helper lemmas: engine behaviour -/

theorem processDriverQueue_responses (dir : UserDir) (sf : Bool)
    (rd : Option RideDetails) (rid : String) (s : DispatchState) :
    (processDriverQueue dir sf rd rid s).1.responses = s.responses := by
  unfold processDriverQueue
  cases s.status with
  | none =>
    rcases hq : s.queue with _ | ⟨d, rest⟩ <;> rcases rd with _ | details <;>
      simp [processQueueBody, hq]
  | some st =>
    by_cases h : st = "pending"
    · simp only [h, ne_eq, not_true_eq_false, if_false]
      rcases hq : s.queue with _ | ⟨d, rest⟩ <;> rcases rd with _ | details <;>
        simp [processQueueBody, hq]
    · simp [ne_eq, h, not_false_eq_true, if_true]

theorem checkDriverTimeout_fires (dir : UserDir) (sf : Bool)
    (rd : Option RideDetails) (rid d : String) (s : DispatchState)
    (hst : s.status = some "pending") (hcur : s.currentDriver = some d) :
    (checkDriverTimeout dir sf rd rid d s).1.responses =
      s.responses ++ [⟨d, "timeout"⟩] := by
  unfold checkDriverTimeout
  rw [hst]
  simp only [hcur, if_true, Option.some.injEq, String.reduceEq, or_self, if_false]
  rw [processDriverQueue_responses]
  rfl

/-! ## Claim theorems -/

/-- C1, counterexample: the claim says every write of the current-offeree
key is a compare-and-set that succeeds only if the key is empty or holds
the writer's expected previous value.  On the concrete first advance of
a freshly seeded request, the single write of the `current_driver` key
is an unconditional `SET` — not a compare-and-set. -/
theorem c1_counterexample :
    offereeWriteConds (step testDir "r1" seededTwo
      (Event.advance (some sampleRideDetails) false)).2 =
      [WriteCond.unconditional] ∧
    isCompareAndSetWrite WriteCond.unconditional = false := by
  constructor
  · decide
  · rfl

/-- C1, amended: at most one driver id is the current offeree at any
instant (the `current_driver` key is a single string value), but every
write of the current-offeree key performed by the engine is an
unconditional `SET` (last-writer-wins), not a compare-and-set. -/
theorem c1_amended (dir : UserDir) (rid : String) (s : DispatchState)
    (evs : List Event) (v : String) (c : WriteCond)
    (h : Eff.offereeWrite v c ∈ (run dir rid s evs).2) :
    c = WriteCond.unconditional ∧ isCompareAndSetWrite c = false ∧
      (run dir rid s evs).1.currentDriver.toList.length ≤ 1 := by
  have hc := mem_offereeWriteConds v c _ h
  have h1 := run_conds dir rid evs s c hc
  refine ⟨h1, by rw [h1]; rfl, ?_⟩
  cases (run dir rid s evs).1.currentDriver <;> simp [Option.toList]

/-- C1, witness for the amended theorem at a concrete run. -/
theorem c1_amended_witness :
    (Eff.offereeWrite "d1" WriteCond.unconditional ∈
      (run testDir "r1" seededTwo
        [Event.advance (some sampleRideDetails) false]).2) ∧
    (WriteCond.unconditional = WriteCond.unconditional ∧
      isCompareAndSetWrite WriteCond.unconditional = false ∧
      (run testDir "r1" seededTwo
        [Event.advance (some sampleRideDetails) false]).1.currentDriver.toList.length ≤ 1) :=
  ⟨by decide,
   c1_amended testDir "r1" seededTwo
     [Event.advance (some sampleRideDetails) false] "d1"
     WriteCond.unconditional (by decide)⟩

/-- C2: on a successful accept the route updates the canonical row's
status to `accepted` but `updateRideRequestStatus` writes no other
column, so the canonical `driver_id` stays NULL — contrary to the claim
that the responding driver's id is recorded.  Evaluated at the failing
input (driver d1 accepts request r1) and stated in general for
`updateRideRequestStatus`. -/
theorem c2_accept_never_records_driver :
    (acceptRoute testDir (some sampleRow) "r1" "d1" (some 5) offeredOne).applied
      = true ∧
    (acceptRoute testDir (some sampleRow) "r1" "d1" (some 5) offeredOne).httpStatus
      = 200 ∧
    (acceptRoute testDir (some sampleRow) "r1" "d1" (some 5)
      offeredOne).canonical.map RideRequestRow.status = some "accepted" ∧
    (acceptRoute testDir (some sampleRow) "r1" "d1" (some 5)
      offeredOne).canonical.map RideRequestRow.driver_id = some none ∧
    (∀ st row, (updateRideRequestStatus st row).driver_id = row.driver_id) :=
  ⟨by decide, by decide, by decide, by decide, fun _ _ => rfl⟩

/-- C3, counterexample: on the concrete successful accept of r1 by d1,
the verdict is applied but the effect list contains no `ride_accepted`
push to the passenger — not the exactly-one push the claim states
(`sendRideAcceptedToRider` exists in the source but nothing calls it). -/
theorem c3_counterexample :
    (acceptRoute testDir (some sampleRow) "r1" "d1" (some 5) offeredOne).applied
      = true ∧
    rideAcceptedPushes
      (acceptRoute testDir (some sampleRow) "r1" "d1" (some 5) offeredOne).effs
      = [] := by
  constructor
  · decide
  · decide

/-- C3, amended: a successful accept emits no `ride_accepted` push at
all; the helper `sendRideAcceptedToRider` would emit exactly one push
carrying the requestId, the driver id and the ETA, but the accept path
never invokes it. -/
theorem c3_amended (dir : UserDir) (rid d riderId tok : String)
    (eta : Option Nat) (s : DispatchState) (db : Option RideRequestRow)
    (hcur : s.currentDriver = some d)
    (htok : lookupToken dir riderId = some tok) :
    (acceptRoute dir db rid d eta s).applied = true ∧
    rideAcceptedPushes (acceptRoute dir db rid d eta s).effs = [] ∧
    sendRideAcceptedToRider dir riderId rid d eta =
      [Eff.fcmRideAccepted riderId rid d
        (match eta with | some n => toString n | none => "")] := by
  have hresp : handleDriverResponse dir rid d "accept" eta s =
      ((handleDriverResponse dir rid d "accept" eta s).1, true, []) := by
    unfold handleDriverResponse
    simp [hcur]
  refine ⟨?_, ?_, ?_⟩
  · unfold acceptRoute
    rw [hresp]
    cases db <;> simp
  · unfold acceptRoute
    rw [hresp]
    cases db <;> simp [rideAcceptedPushes]
  · unfold sendRideAcceptedToRider
    rw [htok]

/-- C3, witness for the amended theorem at the concrete accept. -/
theorem c3_amended_witness :
    (offeredOne.currentDriver = some "d1" ∧
      lookupToken testDir "p1" = some "tok-rider") ∧
    ((acceptRoute testDir (some sampleRow) "r1" "d1" (some 5) offeredOne).applied
        = true ∧
      rideAcceptedPushes
        (acceptRoute testDir (some sampleRow) "r1" "d1" (some 5) offeredOne).effs
        = [] ∧
      sendRideAcceptedToRider testDir "p1" "r1" "d1" (some 5) =
        [Eff.fcmRideAccepted "p1" "r1" "d1" "5"]) :=
  ⟨⟨by decide, by decide⟩,
   c3_amended testDir "r1" "d1" "p1" "tok-rider" (some 5) offeredOne
     (some sampleRow) (by decide) (by decide)⟩

/-- C4, counterexample: in the S3 scenario (candidates d1, d2, both time
out) the status does become `no_drivers_available` and the passenger
gets exactly one push, and the queue key is gone — but the
current-offeree key is NOT removed: it still holds d2, the last offeree
(it only lapses later through its 120 s TTL), contrary to the claim that
the exhaustion transition removes it. -/
theorem c4_counterexample :
    (run testDir "r1" seededTwo s3Events).1.status =
      some "no_drivers_available" ∧
    noDriversPushes (run testDir "r1" seededTwo s3Events).2 =
      [Eff.fcmNoDrivers "p1" "r1"] ∧
    (run testDir "r1" seededTwo s3Events).1.queue = [] ∧
    (run testDir "r1" seededTwo s3Events).1.currentDriver = some "d2" ∧
    ¬ (run testDir "r1" seededTwo s3Events).1.currentDriver = none := by
  refine ⟨by decide, by decide, by decide, by decide, by decide⟩

/-- C4, amended: when the exhaustion transition runs (queue empty, still
pending, ride details carrying the passenger id threaded through), the
status becomes `no_drivers_available` with a 600 s TTL, the passenger
receives exactly one `no_drivers_available` push, the candidate-queue
key stays absent — but the current-offeree key is left untouched rather
than removed. -/
theorem c4_amended (dir : UserDir) (sf : Bool) (details : RideDetails)
    (rid p tok : String) (s : DispatchState)
    (hq : s.queue = []) (hst : s.status = some "pending")
    (hp : details.passengerId = some p)
    (htok : lookupToken dir p = some tok) :
    (processDriverQueue dir sf (some details) rid s).1.status =
      some "no_drivers_available" ∧
    (processDriverQueue dir sf (some details) rid s).1.statusTtl = some 600 ∧
    (processDriverQueue dir sf (some details) rid s).2 =
      [Eff.fcmNoDrivers p rid] ∧
    (processDriverQueue dir sf (some details) rid s).1.queue = [] ∧
    (processDriverQueue dir sf (some details) rid s).1.currentDriver =
      s.currentDriver := by
  have hbody : processDriverQueue dir sf (some details) rid s =
      processQueueBody dir sf (some details) rid s := by
    unfold processDriverQueue
    rw [hst]
    simp
  rw [hbody]
  unfold processQueueBody sendNoDriverFoundToRider
  simp only [hq, hp, htok]
  refine ⟨?_, ?_, ?_, ?_, ?_⟩ <;> trivial

/-- C4, witness for the amended theorem at a concrete exhausted state. -/
theorem c4_amended_witness :
    ((run testDir "r1" seededTwo
        [Event.advance (some sampleRideDetails) false,
         Event.timeout "d1" (some sampleRideDetails) false]).1.queue = [] ∧
      (run testDir "r1" seededTwo
        [Event.advance (some sampleRideDetails) false,
         Event.timeout "d1" (some sampleRideDetails) false]).1.status =
        some "pending" ∧
      sampleRideDetails.passengerId = some "p1" ∧
      lookupToken testDir "p1" = some "tok-rider") ∧
    ((processDriverQueue testDir false (some sampleRideDetails) "r1"
        (run testDir "r1" seededTwo
          [Event.advance (some sampleRideDetails) false,
           Event.timeout "d1" (some sampleRideDetails) false]).1).1.status =
      some "no_drivers_available" ∧
      (processDriverQueue testDir false (some sampleRideDetails) "r1"
        (run testDir "r1" seededTwo
          [Event.advance (some sampleRideDetails) false,
           Event.timeout "d1" (some sampleRideDetails) false]).1).1.statusTtl =
        some 600 ∧
      (processDriverQueue testDir false (some sampleRideDetails) "r1"
        (run testDir "r1" seededTwo
          [Event.advance (some sampleRideDetails) false,
           Event.timeout "d1" (some sampleRideDetails) false]).1).2 =
        [Eff.fcmNoDrivers "p1" "r1"] ∧
      (processDriverQueue testDir false (some sampleRideDetails) "r1"
        (run testDir "r1" seededTwo
          [Event.advance (some sampleRideDetails) false,
           Event.timeout "d1" (some sampleRideDetails) false]).1).1.queue = [] ∧
      (processDriverQueue testDir false (some sampleRideDetails) "r1"
        (run testDir "r1" seededTwo
          [Event.advance (some sampleRideDetails) false,
           Event.timeout "d1" (some sampleRideDetails) false]).1).1.currentDriver =
        (run testDir "r1" seededTwo
          [Event.advance (some sampleRideDetails) false,
           Event.timeout "d1" (some sampleRideDetails) false]).1.currentDriver) :=
  ⟨⟨by decide, by decide, by decide, by decide⟩,
   c4_amended testDir false sampleRideDetails "r1" "p1" "tok-rider"
     (run testDir "r1" seededTwo
       [Event.advance (some sampleRideDetails) false,
        Event.timeout "d1" (some sampleRideDetails) false]).1
     (by decide) (by decide) (by decide) (by decide)⟩

/-- C5, counterexample: a decline by the current offeree d1 is applied,
but the current-offeree key is NOT cleared: it still holds d1 right
after `handleDriverResponse` returns, contrary to the claim. -/
theorem c5_counterexample :
    (handleDriverResponse testDir "r1" "d1" "decline" none offeredOne).2.1
      = true ∧
    (handleDriverResponse testDir "r1" "d1" "decline" none offeredOne).1.currentDriver
      = some "d1" ∧
    ¬ (handleDriverResponse testDir "r1" "d1" "decline" none
        offeredOne).1.currentDriver = none := by
  refine ⟨by decide, by decide, by decide⟩

/-- C5, amended: a decline from the current offeree appends a decline
entry to the response log and schedules the advance to the next
candidate (1 s later, with an empty ride-details object), but it does
not clear the current-offeree key: the declining driver stays recorded
as current until the next offer overwrites the key. -/
theorem c5_amended (dir : UserDir) (rid d : String) (eta : Option Nat)
    (s : DispatchState) (hcur : s.currentDriver = some d) :
    (handleDriverResponse dir rid d "decline" eta s).2.1 = true ∧
    (handleDriverResponse dir rid d "decline" eta s).1.responses =
      s.responses ++ [⟨d, "decline"⟩] ∧
    (handleDriverResponse dir rid d "decline" eta s).1.currentDriver = some d ∧
    (handleDriverResponse dir rid d "decline" eta s).1.queue = s.queue ∧
    (handleDriverResponse dir rid d "decline" eta s).2.2 =
      [Eff.scheduleAdvance 1000 (some emptyRideDetails)] := by
  unfold handleDriverResponse
  simp [hcur, logDriverResponse]

/-- C5, witness for the amended theorem at the concrete decline. -/
theorem c5_amended_witness :
    (offeredOne.currentDriver = some "d1") ∧
    ((handleDriverResponse testDir "r1" "d1" "decline" none offeredOne).2.1
        = true ∧
      (handleDriverResponse testDir "r1" "d1" "decline" none
        offeredOne).1.responses = offeredOne.responses ++ [⟨"d1", "decline"⟩] ∧
      (handleDriverResponse testDir "r1" "d1" "decline" none
        offeredOne).1.currentDriver = some "d1" ∧
      (handleDriverResponse testDir "r1" "d1" "decline" none
        offeredOne).1.queue = offeredOne.queue ∧
      (handleDriverResponse testDir "r1" "d1" "decline" none offeredOne).2.2 =
        [Eff.scheduleAdvance 1000 (some emptyRideDetails)]) :=
  ⟨by decide,
   c5_amended testDir "r1" "d1" none offeredOne (by decide)⟩

/-- C6: a response from any driver that is not the current offeree is
rejected with `applied = false` and changes nothing: the state is
returned untouched and no effect — no push, no log append, no write —
is emitted. -/
theorem c6_nonCurrent_rejected (dir : UserDir) (rid d resp : String)
    (eta : Option Nat) (s : DispatchState)
    (h : ¬ s.currentDriver = some d) :
    handleDriverResponse dir rid d resp eta s = (s, false, []) := by
  unfold handleDriverResponse
  rw [if_neg h]

/-- C6, witness: d2 responds while the sentinel "0" is current. -/
theorem c6_nonCurrent_rejected_witness :
    (¬ seededTwo.currentDriver = some "d2") ∧
    handleDriverResponse testDir "r1" "d2" "accept" (some 4) seededTwo =
      (seededTwo, false, []) :=
  ⟨by decide,
   c6_nonCurrent_rejected testDir "r1" "d2" "accept" (some 4) seededTwo
     (by decide)⟩

/-- C7: when push delivery to the offered driver fails, the engine does
not retry the push in place — there is exactly one `ride_request`
attempt and no scheduled re-advance — it logs the failure, records the
offeree (TTL 120 s), arms the 60 s offer timer, reaches the same state
as a successful delivery, and the armed timer's fire then appends the
timeout entry and advances. -/
theorem c7_delivery_failure_not_retried (dir : UserDir) (details : RideDetails)
    (rid d tok : String) (rest : List String) (s : DispatchState)
    (hst : s.status = some "pending") (hq : s.queue = d :: rest)
    (htok : lookupToken dir d = some tok) :
    (processDriverQueue dir true (some details) rid s).1.currentDriver =
      some d ∧
    (processDriverQueue dir true (some details) rid s).1.currentDriverTtl =
      some 120 ∧
    (processDriverQueue dir true (some details) rid s).2 =
      [Eff.fcmRideRequest d rid (buildTrip details), Eff.sendErrorLog d,
       Eff.offereeWrite d WriteCond.unconditional, Eff.armTimer d 60000] ∧
    rideRequestPushes (processDriverQueue dir true (some details) rid s).2 =
      [Eff.fcmRideRequest d rid (buildTrip details)] ∧
    advanceSchedules (processDriverQueue dir true (some details) rid s).2 = [] ∧
    (processDriverQueue dir true (some details) rid s).1 =
      (processDriverQueue dir false (some details) rid s).1 ∧
    (checkDriverTimeout dir false (some details) rid d
        (processDriverQueue dir true (some details) rid s).1).1.responses =
      (processDriverQueue dir true (some details) rid s).1.responses ++
        [⟨d, "timeout"⟩] := by
  have hbody : ∀ sf, processDriverQueue dir sf (some details) rid s =
      processQueueBody dir sf (some details) rid s := by
    intro sf
    unfold processDriverQueue
    rw [hst]
    simp
  have hsend : sendRideRequestToDriver dir true d rid details =
      [Eff.fcmRideRequest d rid (buildTrip details), Eff.sendErrorLog d] := by
    unfold sendRideRequestToDriver
    rw [htok]
    rfl
  have hstate : ∀ sf, (processDriverQueue dir sf (some details) rid s).1 =
      { s with queue := rest, currentDriver := some d,
               currentDriverTtl := some 120 } := by
    intro sf
    rw [hbody sf]
    unfold processQueueBody
    simp only [hq]
  have heffs : (processDriverQueue dir true (some details) rid s).2 =
      [Eff.fcmRideRequest d rid (buildTrip details), Eff.sendErrorLog d,
       Eff.offereeWrite d WriteCond.unconditional, Eff.armTimer d 60000] := by
    rw [hbody true]
    unfold processQueueBody
    simp only [hq, hsend]
    rfl
  refine ⟨by rw [hstate], by rw [hstate], heffs, ?_, ?_, ?_, ?_⟩
  · rw [heffs]
    rfl
  · rw [heffs]
    rfl
  · rw [hstate, hstate]
  · rw [checkDriverTimeout_fires dir false (some details) rid d _
      (by rw [hstate]; exact hst) (by rw [hstate])]

/-- C7, witness at the concrete first offer with a failing transport. -/
theorem c7_delivery_failure_witness :
    (seededTwo.status = some "pending" ∧ seededTwo.queue = ["d1", "d2"] ∧
      lookupToken testDir "d1" = some "tok-driver") ∧
    ((processDriverQueue testDir true (some sampleRideDetails) "r1"
        seededTwo).1.currentDriver = some "d1" ∧
      (processDriverQueue testDir true (some sampleRideDetails) "r1"
        seededTwo).1.currentDriverTtl = some 120 ∧
      (processDriverQueue testDir true (some sampleRideDetails) "r1"
        seededTwo).2 =
        [Eff.fcmRideRequest "d1" "r1" (buildTrip sampleRideDetails),
         Eff.sendErrorLog "d1",
         Eff.offereeWrite "d1" WriteCond.unconditional,
         Eff.armTimer "d1" 60000] ∧
      rideRequestPushes (processDriverQueue testDir true
          (some sampleRideDetails) "r1" seededTwo).2 =
        [Eff.fcmRideRequest "d1" "r1" (buildTrip sampleRideDetails)] ∧
      advanceSchedules (processDriverQueue testDir true
          (some sampleRideDetails) "r1" seededTwo).2 = [] ∧
      (processDriverQueue testDir true (some sampleRideDetails) "r1"
        seededTwo).1 =
        (processDriverQueue testDir false (some sampleRideDetails) "r1"
          seededTwo).1 ∧
      (checkDriverTimeout testDir false (some sampleRideDetails) "r1" "d1"
          (processDriverQueue testDir true (some sampleRideDetails) "r1"
            seededTwo).1).1.responses =
        (processDriverQueue testDir true (some sampleRideDetails) "r1"
          seededTwo).1.responses ++ [⟨"d1", "timeout"⟩]) :=
  ⟨⟨by decide, by decide, by decide⟩,
   c7_delivery_failure_not_retried testDir sampleRideDetails "r1" "d1"
     "tok-driver" ["d2"] seededTwo (by decide) (by decide) (by decide)⟩

/-- C8: the decline branch schedules the next advance with an empty
ride-details object instead of the original trip data, so the offer made
to the next candidate after a decline carries an empty trip payload —
not the full payload the spec mandates.  Evaluated at the failing input:
d1 declines, then the scheduled advance offers d2 a trip whose passenger,
pickup, dropoff and fare fields are all absent. -/
theorem c8_decline_reoffers_empty_payload :
    (handleDriverResponse testDir "r1" "d1" "decline" none offeredOne).2.2 =
      [Eff.scheduleAdvance 1000 (some emptyRideDetails)] ∧
    rideRequestPushes (step testDir "r1"
      (handleDriverResponse testDir "r1" "d1" "decline" none offeredOne).1
      (Event.advance (some emptyRideDetails) false)).2 =
      [Eff.fcmRideRequest "d2" "r1" (buildTrip emptyRideDetails)] ∧
    (buildTrip emptyRideDetails).passengerName = none ∧
    (buildTrip emptyRideDetails).passengerPhone = none ∧
    (buildTrip emptyRideDetails).pickupAddress = none ∧
    (buildTrip emptyRideDetails).dropoffAddress = none ∧
    (buildTrip emptyRideDetails).proposedFare = none ∧
    ¬ buildTrip emptyRideDetails = buildTrip sampleRideDetails := by
  refine ⟨by decide, by decide, by decide, by decide, by decide, by decide,
    by decide, by decide⟩

/-- C9: over any sequence of engine events on a request seeded with
distinct candidate ids, the driver ids written to the `current_driver`
key are pairwise distinct — every driver is popped and offered at most
once, so a driver in the response log is never re-offered. -/
theorem c9_no_reoffer (dir : UserDir) (rid : String)
    (nearbyDrivers : List NearbyDriver) (evs : List Event)
    (hnd : (nearbyDrivers.map NearbyDriver.driverId).Nodup) :
    (offereeWrites (run dir rid
      (createDriverQueue nearbyDrivers initialDispatchState).1 evs).2).Nodup := by
  have hq : ((createDriverQueue nearbyDrivers initialDispatchState).1).queue.Sublist
      (nearbyDrivers.map NearbyDriver.driverId) := by
    unfold createDriverQueue
    by_cases h : 0 < nearbyDrivers.length
    · simp only [gt_iff_lt, List.length_map, h, if_true, initialDispatchState,
        List.nil_append]
      exact List.Sublist.refl _
    · simp only [gt_iff_lt, List.length_map, h, if_false, initialDispatchState]
      exact List.nil_sublist _
  have h₁ := run_offerees dir rid evs
    (createDriverQueue nearbyDrivers initialDispatchState).1
  have h₂ : (offereeWrites (run dir rid
      (createDriverQueue nearbyDrivers initialDispatchState).1 evs).2).Sublist
      (offereeWrites (run dir rid
        (createDriverQueue nearbyDrivers initialDispatchState).1 evs).2 ++
       (run dir rid
        (createDriverQueue nearbyDrivers initialDispatchState).1 evs).1.queue) :=
    List.sublist_append_left _ _
  exact ((h₂.trans h₁).trans hq).nodup hnd

/-- C9, witness at the S3 run on two distinct candidates. -/
theorem c9_no_reoffer_witness :
    (([⟨"d1"⟩, ⟨"d2"⟩] : List NearbyDriver).map NearbyDriver.driverId).Nodup ∧
    (offereeWrites (run testDir "r1"
      (createDriverQueue [⟨"d1"⟩, ⟨"d2"⟩] initialDispatchState).1
      s3Events).2).Nodup :=
  ⟨by decide, c9_no_reoffer testDir "r1" [⟨"d1"⟩, ⟨"d2"⟩] s3Events (by decide)⟩

/-- C10: right after `createDriverQueue` seeds a non-empty queue, the
current-offeree key holds the literal string "0" with a 600 s TTL, and
any driver response (any verdict, any driver id other than "0",
including the first candidate) is rejected with `applied = false` and no
state change, until the first offer overwrites the key. -/
theorem c10_sentinel_blocks_responses (dir : UserDir) (rid d resp : String)
    (eta : Option Nat) (nearbyDrivers : List NearbyDriver)
    (hne : 0 < (nearbyDrivers.map NearbyDriver.driverId).length)
    (hd : ¬ d = "0") :
    (createDriverQueue nearbyDrivers initialDispatchState).1.currentDriver =
      some "0" ∧
    (createDriverQueue nearbyDrivers initialDispatchState).1.currentDriverTtl =
      some 600 ∧
    handleDriverResponse dir rid d resp eta
      (createDriverQueue nearbyDrivers initialDispatchState).1 =
      ((createDriverQueue nearbyDrivers initialDispatchState).1, false, []) := by
  have hne2 : 0 < nearbyDrivers.length := by simpa using hne
  have hcur : (createDriverQueue nearbyDrivers initialDispatchState).1.currentDriver
      = some "0" := by
    unfold createDriverQueue
    simp [hne2]
  have httl : (createDriverQueue nearbyDrivers initialDispatchState).1.currentDriverTtl
      = some 600 := by
    unfold createDriverQueue
    simp [hne2]
  refine ⟨hcur, httl, ?_⟩
  unfold handleDriverResponse
  rw [if_neg]
  rw [hcur]
  intro hcontra
  exact hd (Option.some.inj hcontra).symm

/-- C10, witness: d1 (the first candidate) tries to accept right after
seeding. -/
theorem c10_sentinel_witness :
    (0 < (([⟨"d1"⟩, ⟨"d2"⟩] : List NearbyDriver).map
      NearbyDriver.driverId).length ∧ ¬ "d1" = "0") ∧
    ((createDriverQueue [⟨"d1"⟩, ⟨"d2"⟩] initialDispatchState).1.currentDriver =
        some "0" ∧
      (createDriverQueue [⟨"d1"⟩, ⟨"d2"⟩]
        initialDispatchState).1.currentDriverTtl = some 600 ∧
      handleDriverResponse testDir "r1" "d1" "accept" (some 5)
        (createDriverQueue [⟨"d1"⟩, ⟨"d2"⟩] initialDispatchState).1 =
        ((createDriverQueue [⟨"d1"⟩, ⟨"d2"⟩] initialDispatchState).1,
          false, [])) :=
  ⟨⟨by decide, by decide⟩,
   c10_sentinel_blocks_responses testDir "r1" "d1" "accept" (some 5)
     [⟨"d1"⟩, ⟨"d2"⟩] (by decide) (by decide)⟩

end HiveTaxi
